import Mathlib

/-!
Shallow embedding of the invoice-generator frontend (Next.js + TypeScript)
and proofs about its behaviour.

Modelled source files:
* `src/app/page.tsx` — invoice compose form (`calculateSubtotal`, `handleSubmit`);
* `src/app/api/create-invoice/route.ts` — proxy endpoint `POST`;
* `src/lib/solpay-client.ts` — `SolPayClient.createPaymentIntent`, `getDefaultClient`;
* `src/app/status/page.tsx` — status lookup `handleSubmit`;
* the invoice display page (`InvoicePage`) — `fetchInvoice`, the polling
  `useEffect`, `getExplorerUrl`, `isPaid`.

JavaScript semantics conventions used throughout:
* an optional JSON field is an `Option`;
* the JS expression `x || d` on strings is `strOr` (empty string and absent
  are falsy), on numbers `intOr` (zero and absent are falsy);
* JS `Math.round` agrees with Mathlib `round` on rationals (both are
  floor of x + 1/2), and form quantities/prices are embedded as `Rat`.
-/

namespace SolPay

/-- JS truthiness of an optional string: absent and empty are falsy. -/
def strTruthy : Option String → Bool
  | none => false
  | some s => !(s == "")

/-- JS `o || d` for an optional string `o` and default `d`. -/
def strOr (o : Option String) (d : String) : String :=
  match o with
  | none => d
  | some s => if s == "" then d else s

/-- JS `s || d` for a (non-optional) string. -/
def strOrStr (s d : String) : String :=
  if s == "" then d else s

/-- JS truthiness of an optional number: absent and zero are falsy. -/
def intTruthy : Option Int → Bool
  | none => false
  | some n => !(n == 0)

/-- JS `o || d` for an optional number `o` and default `d`. -/
def intOr (o : Option Int) (d : Int) : Int :=
  match o with
  | none => d
  | some n => if n == 0 then d else n

/-- JS `s.startsWith(pre)`: prefix test on the character lists. -/
def jsStartsWith (s pre : String) : Bool :=
  pre.toList.isPrefixOf s.toList

end SolPay

namespace Home

/-- A line item of the compose form (`src/app/page.tsx`, interface LineItem). -/
structure LineItem where
  id : String
  description : String
  quantity : Rat
  price : Rat
deriving DecidableEq

/-- Source: `calculateSubtotal` in `src/app/page.tsx` (reduce over
`quantity * price` starting from 0). -/
def calculateSubtotal (lineItems : List LineItem) : Rat :=
  lineItems.foldl (fun sum item => sum + item.quantity * item.price) 0

/-- Outcome of form submission.  `validationError` means `handleSubmit`
threw before issuing the network request; `createRequest` records the
body fields of the POST to the proxy (`amount` in microunits, the chosen
network, and the description-filtered line items sent as metadata). -/
inductive SubmitAction where
  | validationError (message : String)
  | createRequest (amount : Int) (network : String) (lineItems : List LineItem)
deriving DecidableEq

/-- Source: `handleSubmit` in `src/app/page.tsx`, lines 45–79: the two
validation checks in order, then `Math.round(subtotal * 1000000)` and the
fetch to `/api/create-invoice`. -/
def handleSubmit (network : String) (lineItems : List LineItem) : SubmitAction :=
  if lineItems.length == 0 || lineItems.all (fun item => item.description == "") then
    .validationError "Please add at least one line item"
  else
    let subtotal := calculateSubtotal lineItems
    if subtotal ≤ 0 then
      .validationError "Invoice total must be greater than 0"
    else
      .createRequest (round (subtotal * 1000000)) network
        (lineItems.filter (fun item => item.description != ""))

end Home

namespace SolPay

/-- Environment variables read by the app (all optional strings). -/
structure Env where
  NEXT_PUBLIC_SOLPAY_API_BASE : Option String := none
  NEXT_PUBLIC_SOLPAY_API_BASE_MAINNET : Option String := none
  NEXT_PUBLIC_NETWORK : Option String := none
  NEXT_PUBLIC_MERCHANT_WALLET : Option String := none
  NEXT_PUBLIC_FACILITATOR_ID : Option String := none
deriving DecidableEq

/-- Receipt block of the server JSON (`receipt` in the `PaymentIntent`
interface of `src/lib/solpay-client.ts` and the display page). -/
structure RawReceipt where
  url : String
  sha256_hash : String
  memo : String
  transaction_signature : String
deriving DecidableEq

/-- The `x402_context` block of the server JSON; the display page reads
`x402_context?.network?` with optional chaining, so `network` is optional. -/
structure X402Context where
  network : Option String := none
deriving DecidableEq

/-- Payment-intent JSON as returned by the external API (fields the app
reads; optional fields are `Option`, matching absent-or-falsy JS checks). -/
structure RawIntent where
  id : String
  status : String
  amount : Option Int := none
  amount_fees : Option Int := none
  amount_merchant : Option Int := none
  payment_url : Option String := none
  receipt : Option RawReceipt := none
  x402_context : Option X402Context := none
deriving DecidableEq

end SolPay

namespace SolPayClient

open SolPay

/-- Resolved client configuration (`Required<SolPayConfig>` in
`src/lib/solpay-client.ts`). -/
structure ClientConfig where
  apiBase : String
  merchantWallet : String
  network : String
  facilitatorId : String
deriving DecidableEq

/-- Input of `createPaymentIntent` (`PaymentParams`). -/
structure PaymentParams where
  amount : Int
  asset : String
  customerEmail : Option String := none
deriving DecidableEq

/-- The `amount` breakdown of a `PaymentResult`. -/
structure AmountBreakdown where
  requested : Int
  total : Int
  fees : Int
  net : Int
deriving DecidableEq

/-- Normalized receipt inside a `PaymentResult`. -/
structure ResultReceipt where
  url : String
  hash : String
  memo : String
  signature : String
deriving DecidableEq

/-- Normalized result of `createPaymentIntent` (`PaymentResult`). -/
structure PaymentResult where
  intentId : String
  paymentUrl : String
  status : String
  amount : AmountBreakdown
  receipt : Option ResultReceipt := none
deriving DecidableEq

/-- Source: the success branch of `SolPayClient.createPaymentIntent`
(`src/lib/solpay-client.ts`, lines 109–128): normalization of the parsed
server intent into a `PaymentResult`, with JS `||` fallbacks. -/
def normalizeResult (apiBase : String) (params : PaymentParams) (intent : RawIntent) :
    PaymentResult :=
  { intentId := intent.id
    paymentUrl := strOr intent.payment_url (apiBase ++ "/pay/" ++ intent.id)
    status := intent.status
    amount :=
      { requested := params.amount
        total := intOr intent.amount params.amount
        fees := intOr intent.amount_fees 0
        net := intOr intent.amount_merchant params.amount }
    receipt := intent.receipt.map fun r =>
      { url := r.url, hash := r.sha256_hash, memo := r.memo,
        signature := r.transaction_signature } }

/-- Source: `SolPayClient.createPaymentIntent`.  The HTTP exchange is
abstracted as its outcome: `.error e` is the thrown error of the non-2xx
branch (message already extracted from the body or synthesized from the
HTTP status), `.ok intent` is the parsed 2xx JSON. -/
def createPaymentIntent (cfg : ClientConfig) (params : PaymentParams)
    (response : Except String RawIntent) : Except String PaymentResult :=
  match response with
  | .error e => .error e
  | .ok intent => .ok (normalizeResult cfg.apiBase params intent)

/-- Source: network selection in `getDefaultClient`
(`src/lib/solpay-client.ts`, line 153): `network || env || "solana:devnet"`. -/
def selectedNetworkOf (network : Option String) (env : Env) : String :=
  strOr network (strOr env.NEXT_PUBLIC_NETWORK "solana:devnet")

/-- Source: base-URL selection in `getDefaultClient` (lines 156–158):
mainnet network uses the mainnet base variable, everything else the
devnet one. -/
def clientApiBase (network : Option String) (env : Env) : String :=
  if selectedNetworkOf network env == "solana:mainnet" then
    strOr env.NEXT_PUBLIC_SOLPAY_API_BASE_MAINNET "https://www.solpay.cash"
  else
    strOr env.NEXT_PUBLIC_SOLPAY_API_BASE "https://dev.solpay.cash"

/-- Source: `getDefaultClient` (`src/lib/solpay-client.ts`, lines 152–173).
Throwing (missing merchant wallet) is modelled as `.error`. -/
def getDefaultClient (network : Option String) (env : Env) :
    Except String ClientConfig :=
  let selectedNetwork := selectedNetworkOf network env
  let apiBase := clientApiBase network env
  let merchantWallet := strOr env.NEXT_PUBLIC_MERCHANT_WALLET ""
  if merchantWallet == "" then
    .error "NEXT_PUBLIC_MERCHANT_WALLET environment variable is not set. Please add your Solana wallet address to .env.local"
  else
    .ok { apiBase := apiBase
          merchantWallet := merchantWallet
          network := selectedNetwork
          facilitatorId := strOr env.NEXT_PUBLIC_FACILITATOR_ID "facilitator.payai.network" }

end SolPayClient

namespace CreateInvoiceRoute

open SolPay SolPayClient

/-- Parsed JSON body of a `POST /api/create-invoice` request
(`src/app/api/create-invoice/route.ts`, destructured on line 6).
The free-form `metadata` map is passed through untouched and not modelled. -/
structure CreateInvoiceBody where
  amount : Option Int := none
  asset : Option String := none
  network : Option String := none
  customerEmail : Option String := none
deriving DecidableEq

/-- HTTP response of the proxy route: 400, 200 or 500. -/
inductive RouteResponse where
  | badRequest (error : String)
  | ok (result : PaymentResult)
  | serverError (error : String)
deriving DecidableEq

/-- Whether a response is a 400. -/
def isBadRequest : RouteResponse → Bool
  | .badRequest _ => true
  | _ => false

/-- Whether a response is a 500. -/
def isServerError : RouteResponse → Bool
  | .serverError _ => true
  | _ => false

/-- Source: the closed network enum check on line 17 of the route. -/
def validNetwork (n : String) : Bool :=
  n == "solana:devnet" || n == "solana:mainnet"

/-- The `PaymentParams` the route passes to `createPaymentIntent`. -/
def routeParams (body : CreateInvoiceBody) : PaymentParams :=
  { amount := body.amount.getD 0
    asset := (body.asset).getD ""
    customerEmail := body.customerEmail }

/-- Delegation tail of the route: call the client and map a thrown error to
a 500 with `error.message || "Failed to create invoice"`. -/
def delegateCreate (cfg : ClientConfig) (params : PaymentParams)
    (upstream : ClientConfig → PaymentParams → Except String RawIntent) :
    RouteResponse :=
  match createPaymentIntent cfg params (upstream cfg params) with
  | .error e => .serverError (strOrStr e "Failed to create invoice")
  | .ok r => .ok r

/-- The post-validation tail of the route: construct the client from the
request network (a thrown configuration error lands in the same catch as a
thrown client error, giving a 500) and delegate. -/
def dispatchCreate (env : Env) (body : CreateInvoiceBody)
    (upstream : ClientConfig → PaymentParams → Except String RawIntent) :
    RouteResponse :=
  match getDefaultClient body.network env with
  | .error e => .serverError (strOrStr e "Failed to create invoice")
  | .ok cfg => delegateCreate cfg (routeParams body) upstream

/-- Source: `POST` in `src/app/api/create-invoice/route.ts`.  `upstream`
abstracts the external HTTP exchange performed by the client for a given
configuration and params. -/
def POST (env : Env) (body : CreateInvoiceBody)
    (upstream : ClientConfig → PaymentParams → Except String RawIntent) :
    RouteResponse :=
  if !(intTruthy body.amount) || !(strTruthy body.asset) then
    .badRequest "Amount and asset are required"
  else if strTruthy body.network && !(validNetwork (body.network.getD "")) then
    .badRequest "Invalid network. Must be solana:devnet or solana:mainnet"
  else
    dispatchCreate env body upstream

end CreateInvoiceRoute

namespace StatusPage

open SolPay

/-- A fetch issued by the page: its URL and whether it bypasses the cache
(`cache: "no-store"`). -/
structure FetchCall where
  url : String
  noStore : Bool
deriving DecidableEq

/-- Outcome of the status-lookup submission. -/
inductive LookupOutcome where
  | invalidId (message : String)
  | notFound (message : String)
  | redirect (path : String)
deriving DecidableEq

/-- Source: `handleSubmit` in `src/app/status/page.tsx`, lines 12–39:
prefix validation, cache-bypassing existence check, then client-side
redirect.  Returns the outcome together with the list of network calls
made.  `responseOk` abstracts `response.ok` of the GET. -/
def handleSubmit (apiBase intentId : String) (responseOk : Bool) :
    LookupOutcome × List FetchCall :=
  if !(jsStartsWith intentId "pi_") then
    (.invalidId "Invalid payment intent ID. It should start with \"pi_\"", [])
  else
    let call : FetchCall :=
      { url := apiBase ++ "/api/v1/payment_intents/" ++ intentId, noStore := true }
    if !responseOk then
      (.notFound "Invoice not found. Please check the payment intent ID.", [call])
    else
      (.redirect ("/invoice/" ++ intentId), [call])

/-- Source: line 24 of `src/app/status/page.tsx`:
`process.env.NEXT_PUBLIC_SOLPAY_API_BASE || "https://dev.solpay.cash"`. -/
def lookupApiBase (env : Env) : String :=
  strOr env.NEXT_PUBLIC_SOLPAY_API_BASE "https://dev.solpay.cash"

end StatusPage

namespace SolPay

/-- Auxiliary for JS `String.prototype.includes`: does `sub` occur as a
contiguous run inside `s` (as character lists)? -/
def containsList (sub : List Char) : List Char → Bool
  | [] => sub.isEmpty
  | c :: rest => sub.isPrefixOf (c :: rest) || containsList sub rest

/-- JS `s.includes(sub)`: substring containment. -/
def strIncludes (s sub : String) : Bool :=
  containsList sub.toList s.toList

end SolPay

namespace InvoicePage

open SolPay

/-- Source: line 65 of the display page:
`process.env.NEXT_PUBLIC_SOLPAY_API_BASE || "https://dev.solpay.cash"`.
The page resolves one base URL for every fetch; it takes no network input. -/
def fetchApiBase (env : Env) : String :=
  strOr env.NEXT_PUBLIC_SOLPAY_API_BASE "https://dev.solpay.cash"

/-- Source: line 68 of the display page — the GET URL of `fetchInvoice`. -/
def fetchUrl (apiBase intentId : String) : String :=
  apiBase ++ "/api/v1/payment_intents/" ++ intentId

/-- Source: lines 83–86 of the display page — mutate the fetched data with
a fallback `payment_url` when the server one is absent or falsy. -/
def applyPaymentUrlFallback (apiBase intentId : String) (data : RawIntent) :
    RawIntent :=
  if strTruthy data.payment_url then data
  else { data with payment_url := some (apiBase ++ "/pay/" ++ intentId) }

/-- Source: line 162 of the display page:
`invoice.status === "succeeded" || invoice.status === "completed"`. -/
def isPaid (status : String) : Bool :=
  status == "succeeded" || status == "completed"

/-- The optional chain `invoice?.x402_context?.network` of the display page. -/
def x402NetworkOf (invoice : Option RawIntent) : Option String :=
  invoice.bind fun d => d.x402_context.bind fun c => c.network

/-- The condition `invoice?.x402_context?.network?.includes("devnet")`
(line 123): an absent link in the chain is falsy. -/
def networkIncludesDevnet : Option String → Bool
  | none => false
  | some s => strIncludes s "devnet"

/-- Source: the `network` local of `getExplorerUrl` (line 123). -/
def explorerCluster (invoice : Option RawIntent) : String :=
  if networkIncludesDevnet (x402NetworkOf invoice) then "devnet" else "mainnet-beta"

/-- Source: `getExplorerUrl` in the display page, lines 122–125. -/
def getExplorerUrl (invoice : Option RawIntent) (signature : String) : String :=
  "https://explorer.solana.com/tx/" ++ signature ++ "?cluster=" ++ explorerCluster invoice

/-- React state of one mounted `InvoicePage` view, plus whether the
polling interval of the `useEffect` on `[invoice?.status]` (lines 53–61)
is currently scheduled. -/
structure CState where
  invoice : Option RawIntent
  error : String
  loading : Bool
  mounted : Bool
  timerActive : Bool
deriving DecidableEq

/-- The dependency `invoice?.status` of the polling effect. -/
def statusOf (s : CState) : Option String :=
  s.invoice.map fun d => d.status

/-- Whether the last-known status is exactly `"pending"`. -/
def statusPending (s : CState) : Bool :=
  match s.invoice with
  | none => false
  | some d => d.status == "pending"

/-- Whether the effect dependency `invoice?.status` changes when the
stored invoice is replaced by one with status `newStatus`: it does unless
an invoice was stored and already had that status. -/
def depChanged (s : CState) (newStatus : String) : Bool :=
  match s.invoice with
  | none => true
  | some d0 => !(d0.status == newStatus)

/-- The paid flag of a rendered view state: the `isPaid` of the stored
invoice, false while none is stored (the paid branch is only reachable
once an invoice rendered). -/
def stateIsPaid (s : CState) : Bool :=
  match s.invoice with
  | none => false
  | some d => isPaid d.status

/-- Events delivered to a view: a fetch settling (success with parsed JSON,
or failure with the thrown message), a timer tick, and teardown.  A tick
only triggers a new fetch, whose settlement arrives as a later event. -/
inductive Ev where
  | fetchSuccess (data : RawIntent)
  | fetchError (message : String)
  | tick
  | unmount
deriving DecidableEq

/-- One step of the view.  State updates after unmount are dropped.  On a
fetch success the page stores the data with the `payment_url` fallback
applied (lines 83–88) and clears `loading`; React then re-runs the polling
effect exactly when the dependency `invoice?.status` changed: the cleanup
cancels the old interval and the effect body starts a new one only when the
new status is `"pending"` (lines 53–61).  On a fetch error the page sets
`error` (line 111); `invoice` is untouched, so the effect does not re-run
and the interval is kept as is.  Teardown runs the cleanup, cancelling the
interval. -/
def step (apiBase intentId : String) (s : CState) (e : Ev) : CState :=
  if !s.mounted then s else
  match e with
  | .fetchSuccess data =>
      let d := applyPaymentUrlFallback apiBase intentId data
      { s with invoice := some d, loading := false,
               timerActive := if depChanged s d.status then d.status == "pending"
                              else s.timerActive }
  | .fetchError msg => { s with error := msg, loading := false }
  | .tick => s
  | .unmount => { s with mounted := false, timerActive := false }

/-- Initial state of a freshly mounted view: no invoice, no error, loading,
and the polling effect has run once with `invoice?.status = undefined`, so
no interval is scheduled. -/
def init : CState :=
  { invoice := none, error := "", loading := true, mounted := true, timerActive := false }

/-- The state after a sequence of events on a mounted view. -/
def run (apiBase intentId : String) (evs : List Ev) : CState :=
  evs.foldl (step apiBase intentId) init

end InvoicePage

/-! Concrete fixtures used by witnesses and counterexamples. -/

/-- A one-item list with a non-empty description; subtotal 6. -/
def demoItems : List Home.LineItem :=
  [{ id := "1", description := "Design work", quantity := 2, price := 3 }]

/-- A one-item list whose only description is empty, with positive subtotal. -/
def emptyDescItems : List Home.LineItem :=
  [{ id := "1", description := "", quantity := 1, price := 5 }]

/-- A pending intent with no optional fields. -/
def rawPending : SolPay.RawIntent := { id := "pi_9", status := "pending" }

/-- An intent with a status that is neither paid-like nor `"pending"`. -/
def rawFailed : SolPay.RawIntent := { id := "pi_9", status := "failed" }

/-- A succeeded intent. -/
def rawSucceeded : SolPay.RawIntent := { id := "pi_9", status := "succeeded" }

/-- An intent whose `x402_context` is absent entirely. -/
def intentNoNet : SolPay.RawIntent := { id := "pi_9", status := "succeeded" }

/-- An intent on the devnet network. -/
def intentDevnet : SolPay.RawIntent :=
  { id := "pi_9", status := "succeeded",
    x402_context := some { network := some "solana:devnet" } }

/-- Create params requesting amount 7. -/
def paramsSeven : SolPayClient.PaymentParams := { amount := 7, asset := "USDC" }

/-- A server response with `amount` present but zero and `amount_fees`,
`amount_merchant` absent. -/
def intentZeroAmount : SolPay.RawIntent :=
  { id := "pi_7", status := "pending", amount := some 0 }

/-- An intent lacking `payment_url`. -/
def intentNoUrl : SolPay.RawIntent := { id := "pi_5", status := "pending" }

/-- Environment with only the merchant wallet configured. -/
def envWallet : SolPay.Env := { NEXT_PUBLIC_MERCHANT_WALLET := some "merchant111" }

/-- A create body with truthy amount and asset and no network field. -/
def bodyNoNetwork : CreateInvoiceRoute.CreateInvoiceBody :=
  { amount := some 1000000, asset := some "USDC" }

/-- A create body whose network field is present but the empty string. -/
def bodyEmptyNetwork : CreateInvoiceRoute.CreateInvoiceBody :=
  { amount := some 1000000, asset := some "USDC", network := some "" }

/-- An upstream exchange that always throws. -/
def upstreamErr : SolPayClient.ClientConfig → SolPayClient.PaymentParams →
    Except String SolPay.RawIntent :=
  fun _ _ => .error "boom"

/-- An upstream exchange that always returns a fresh pending intent. -/
def upstreamOk : SolPayClient.ClientConfig → SolPayClient.PaymentParams →
    Except String SolPay.RawIntent :=
  fun _ _ => .ok { id := "pi_77", status := "pending" }

/-- A mainnet intent lacking `payment_url`. -/
def intentMainnetNoUrl : SolPay.RawIntent :=
  { id := "pi_3", status := "pending",
    x402_context := some { network := some "solana:mainnet" } }

/-! Theorems. -/

/-- Claim C5: a line-item list with at least one non-empty description and
subtotal strictly greater than 0 passes both validation checks and the form
posts the integer amount `round(subtotal * 1000000)` to the proxy, with the
empty-description items filtered out. -/
theorem submit_valid_items_posts_rounded_micros (network : String)
    (items : List Home.LineItem)
    (hdesc : ∃ item ∈ items, item.description ≠ "")
    (hpos : 0 < Home.calculateSubtotal items) :
    Home.handleSubmit network items =
      .createRequest (round (Home.calculateSubtotal items * 1000000)) network
        (items.filter (fun item => item.description != "")) := by
  obtain ⟨it, hmem, hne⟩ := hdesc
  have h1 : (items.length == 0 || items.all fun item => item.description == "") = false := by
    refine Bool.or_eq_false_iff.mpr ⟨?_, ?_⟩
    · have : items ≠ [] := by rintro rfl; exact absurd hmem (List.not_mem_nil it)
      simpa [List.length_eq_zero] using this
    · exact List.all_eq_false.mpr ⟨it, hmem, by simpa using hne⟩
  unfold Home.handleSubmit
  rw [h1]
  simp only [Bool.false_eq_true, if_false]
  rw [if_neg (not_le.mpr hpos)]

/-- Witness for C5 at a concrete list: subtotal 6, posted amount 6000000. -/
theorem submit_valid_items_posts_rounded_micros_witness :
    Home.handleSubmit "solana:devnet" demoItems =
      .createRequest 6000000 "solana:devnet" demoItems := by
  have hsub : Home.calculateSubtotal demoItems = 6 := by
    norm_num [Home.calculateSubtotal, demoItems]
  have h := submit_valid_items_posts_rounded_micros "solana:devnet" demoItems
    ⟨{ id := "1", description := "Design work", quantity := 2, price := 3 },
      by simp [demoItems], by simp⟩
    (by rw [hsub]; norm_num)
  rw [h, hsub]
  have hround : round ((6 : Rat) * 1000000) = 6000000 := by
    rw [round_eq]
    norm_num
  rw [hround]
  simp [demoItems]

/-- Claim C6: an empty line-item list, or one whose descriptions are all
empty, fails with the add-at-least-one-line-item error; the model emits a
`createRequest` only when the network call is issued, so this failure
happens before any network call, and it wins over the subtotal check even
when the subtotal is positive. -/
theorem submit_no_descriptions_fails_before_network (network : String)
    (items : List Home.LineItem)
    (h : items = [] ∨ ∀ item ∈ items, item.description = "") :
    Home.handleSubmit network items =
      .validationError "Please add at least one line item" := by
  have h1 : (items.length == 0 || items.all fun item => item.description == "") = true := by
    rcases h with rfl | hall
    · rfl
    · refine Bool.or_eq_true_iff.mpr (Or.inr (List.all_eq_true.mpr ?_))
      intro it hmem
      simpa using hall it hmem
  unfold Home.handleSubmit
  rw [h1]
  rfl

/-- Witness for C6 at a list whose only description is empty although its
subtotal is 5: the description error fires, not the subtotal error. -/
theorem submit_no_descriptions_fails_before_network_witness :
    Home.handleSubmit "solana:devnet" emptyDescItems =
      .validationError "Please add at least one line item" :=
  submit_no_descriptions_fails_before_network "solana:devnet" emptyDescItems
    (Or.inr (by decide))

/-- Boolean prefix test on character lists agrees with existence of a
completing tail. -/
theorem isPrefixOf_iff_append (l₁ l₂ : List Char) :
    l₁.isPrefixOf l₂ = true ↔ ∃ r, l₂ = l₁ ++ r := by
  induction l₁ generalizing l₂ with
  | nil => simp [List.isPrefixOf]
  | cons a as ih =>
    cases l₂ with
    | nil => simp [List.isPrefixOf]
    | cons b bs =>
      simp only [List.isPrefixOf, Bool.and_eq_true, beq_iff_eq, ih, List.cons_append,
        List.cons.injEq]
      constructor
      · rintro ⟨rfl, r, rfl⟩
        exact ⟨r, rfl, rfl⟩
      · rintro ⟨r, rfl, rfl⟩
        exact ⟨rfl, r, rfl⟩

/-- The containment scan agrees with existence of a decomposition around
the pattern. -/
theorem containsList_iff (sub : List Char) :
    ∀ s : List Char, SolPay.containsList sub s = true ↔ ∃ l r, s = l ++ sub ++ r := by
  intro s
  induction s with
  | nil =>
    simp only [SolPay.containsList, List.isEmpty_iff]
    constructor
    · rintro rfl
      exact ⟨[], [], rfl⟩
    · rintro ⟨l, r, h⟩
      rcases List.append_eq_nil.mp (List.append_eq_nil.mp h.symm).1 with ⟨-, h1⟩
      exact h1
  | cons c rest ih =>
    simp only [SolPay.containsList, Bool.or_eq_true, isPrefixOf_iff_append, ih]
    constructor
    · rintro (⟨r, hr⟩ | ⟨l, r, hr⟩)
      · exact ⟨[], r, by simpa using hr⟩
      · exact ⟨c :: l, r, by simp [hr]⟩
    · rintro ⟨l, r, hr⟩
      cases l with
      | nil => exact Or.inl ⟨r, by simpa using hr⟩
      | cons d l2 =>
        obtain ⟨rfl, hrest⟩ := List.cons.inj (by simpa using hr)
        exact Or.inr ⟨l2, r, by simpa using hrest⟩

/-- JS substring containment agrees with existence of a decomposition of
the character list. -/
theorem strIncludes_iff (s sub : String) :
    SolPay.strIncludes s sub = true ↔ ∃ l r, s.toList = l ++ sub.toList ++ r :=
  containsList_iff sub.toList s.toList

/-- Claim C3 (amended): the explorer URL for a receipt signature is
`https://explorer.solana.com/tx/{signature}?cluster={C}` where the cluster
`C` is `devnet` exactly when the x402 network chain resolves to a string
containing the substring `"devnet"`, and `mainnet-beta` in every other
case — including strings containing neither substring, the empty string,
and an absent network field or context. -/
theorem explorer_cluster_selection (invoice : Option SolPay.RawIntent)
    (signature : String) :
    InvoicePage.getExplorerUrl invoice signature
      = "https://explorer.solana.com/tx/" ++ signature ++ "?cluster="
          ++ InvoicePage.explorerCluster invoice
    ∧ (InvoicePage.explorerCluster invoice = "devnet"
        ↔ ∃ s l r, InvoicePage.x402NetworkOf invoice = some s
            ∧ s.toList = l ++ "devnet".toList ++ r)
    ∧ (InvoicePage.explorerCluster invoice = "devnet"
        ∨ InvoicePage.explorerCluster invoice = "mainnet-beta") := by
  refine ⟨rfl, ?_, ?_⟩
  · have hb : InvoicePage.explorerCluster invoice = "devnet"
        ↔ InvoicePage.networkIncludesDevnet (InvoicePage.x402NetworkOf invoice) = true := by
      unfold InvoicePage.explorerCluster
      by_cases hx : InvoicePage.networkIncludesDevnet (InvoicePage.x402NetworkOf invoice) = true
      · simp [hx]
      · simp only [Bool.not_eq_true] at hx
        simp [hx]
    rw [hb]
    cases hnet : InvoicePage.x402NetworkOf invoice with
    | none => simp [InvoicePage.networkIncludesDevnet]
    | some s => simp [InvoicePage.networkIncludesDevnet, strIncludes_iff]
  · unfold InvoicePage.explorerCluster
    split
    · exact Or.inl rfl
    · exact Or.inr rfl

/-- Witness for C3 at a devnet intent: the cluster resolves to devnet. -/
theorem explorer_cluster_selection_witness :
    InvoicePage.explorerCluster (some intentDevnet) = "devnet" :=
  ((explorer_cluster_selection (some intentDevnet) "sig").2.1).mpr
    ⟨"solana:devnet", "solana:".toList, [], rfl, by decide⟩

/-- Counterexample to C3 as stated: for an intent whose x402 context is
absent the network string is neither present nor contains `"mainnet"`, so
the claim demands cluster `devnet`; the code picks `mainnet-beta`, because
line 123 of the display page tests `includes("devnet")` and defaults to
`mainnet-beta`, not the other way round. -/
theorem explorer_absent_network_gets_mainnet_beta :
    InvoicePage.getExplorerUrl (some intentNoNet) "sig0"
      = "https://explorer.solana.com/tx/sig0?cluster=mainnet-beta"
    ∧ InvoicePage.x402NetworkOf (some intentNoNet) = none := ⟨rfl, rfl⟩

/-- Claim C4 (amended): for a successful `createPaymentIntent` call with
input amount `a`, the returned breakdown has `requested = a`; `total`,
`fees` and `net` are the server fields `amount`, `amount_fees`,
`amount_merchant` when those are present and nonzero, and when a field is
absent or zero, `total` and `net` fall back to the input amount `a` while
`fees` falls back to `0` (not to `a`). -/
theorem create_amount_breakdown (apiBase : String)
    (params : SolPayClient.PaymentParams) (intent : SolPay.RawIntent) :
    (SolPayClient.normalizeResult apiBase params intent).amount.requested = params.amount
    ∧ ((intent.amount = none ∨ intent.amount = some 0) →
        (SolPayClient.normalizeResult apiBase params intent).amount.total = params.amount)
    ∧ (∀ n : Int, intent.amount = some n → n ≠ 0 →
        (SolPayClient.normalizeResult apiBase params intent).amount.total = n)
    ∧ ((intent.amount_fees = none ∨ intent.amount_fees = some 0) →
        (SolPayClient.normalizeResult apiBase params intent).amount.fees = 0)
    ∧ (∀ n : Int, intent.amount_fees = some n → n ≠ 0 →
        (SolPayClient.normalizeResult apiBase params intent).amount.fees = n)
    ∧ ((intent.amount_merchant = none ∨ intent.amount_merchant = some 0) →
        (SolPayClient.normalizeResult apiBase params intent).amount.net = params.amount)
    ∧ (∀ n : Int, intent.amount_merchant = some n → n ≠ 0 →
        (SolPayClient.normalizeResult apiBase params intent).amount.net = n) := by
  refine ⟨rfl, ?_, ?_, ?_, ?_, ?_, ?_⟩
  · rintro (h | h) <;> simp [SolPayClient.normalizeResult, SolPay.intOr, h]
  · intro n hn hne
    simp [SolPayClient.normalizeResult, SolPay.intOr, hn, hne]
  · rintro (h | h) <;> simp [SolPayClient.normalizeResult, SolPay.intOr, h]
  · intro n hn hne
    simp [SolPayClient.normalizeResult, SolPay.intOr, hn, hne]
  · rintro (h | h) <;> simp [SolPayClient.normalizeResult, SolPay.intOr, h]
  · intro n hn hne
    simp [SolPayClient.normalizeResult, SolPay.intOr, hn, hne]

/-- Witness for C4 at a response with `amount` present but zero and
`amount_fees` absent: `total` falls back to the requested 7 and `fees`
to 0. -/
theorem create_amount_breakdown_witness :
    (SolPayClient.normalizeResult "https://dev.solpay.cash" paramsSeven
        intentZeroAmount).amount.total = 7
    ∧ (SolPayClient.normalizeResult "https://dev.solpay.cash" paramsSeven
        intentZeroAmount).amount.fees = 0 := by
  have h := create_amount_breakdown "https://dev.solpay.cash" paramsSeven intentZeroAmount
  exact ⟨h.2.1 (Or.inr rfl), h.2.2.2.1 (Or.inl rfl)⟩

/-- Counterexample to C4 as stated: the claim says each of `total`, `fees`,
`net` falls back to the input amount when the server field is absent.  With
input amount 7, `amount_fees` absent and `amount` present but zero, the
code yields `fees = 0` (not 7, line 116 of the client: falls back to
literal 0) and `total = 7` although the server field `amount` is present
(the `||` fallback also fires on a present zero). -/
theorem create_fees_fallback_not_requested :
    ¬ (SolPayClient.normalizeResult "https://dev.solpay.cash" paramsSeven
        intentZeroAmount).amount.fees = paramsSeven.amount
    ∧ intentZeroAmount.amount_fees = none
    ∧ intentZeroAmount.amount = some 0
    ∧ (SolPayClient.normalizeResult "https://dev.solpay.cash" paramsSeven
        intentZeroAmount).amount.total = paramsSeven.amount := by
  refine ⟨by decide, rfl, rfl, rfl⟩

/-- Claim C9: an intent response whose `payment_url` is absent or falsy
gets the fallback `{apiBase}/pay/{id}` — both on the display page (which
uses the route id) and in the normalized `createPaymentIntent` result
(which uses the id of the response); a present non-empty `payment_url` is
used verbatim by both. -/
theorem payment_url_fallback (apiBase intentId : String)
    (params : SolPayClient.PaymentParams) (intent : SolPay.RawIntent) :
    ((intent.payment_url = none ∨ intent.payment_url = some "") →
      (InvoicePage.applyPaymentUrlFallback apiBase intentId intent).payment_url
          = some (apiBase ++ "/pay/" ++ intentId)
      ∧ (SolPayClient.normalizeResult apiBase params intent).paymentUrl
          = apiBase ++ "/pay/" ++ intent.id)
    ∧ (∀ u : String, intent.payment_url = some u → u ≠ "" →
      (InvoicePage.applyPaymentUrlFallback apiBase intentId intent).payment_url = some u
      ∧ (SolPayClient.normalizeResult apiBase params intent).paymentUrl = u) := by
  constructor
  · rintro (h | h) <;>
      exact ⟨by simp [InvoicePage.applyPaymentUrlFallback, SolPay.strTruthy, h],
             by simp [SolPayClient.normalizeResult, SolPay.strOr, h]⟩
  · intro u hu hne
    refine ⟨?_, ?_⟩
    · simp [InvoicePage.applyPaymentUrlFallback, SolPay.strTruthy, hu, hne]
    · simp [SolPayClient.normalizeResult, SolPay.strOr, hu, hne]

/-- Witness for C9 at an intent lacking `payment_url`. -/
theorem payment_url_fallback_witness :
    (InvoicePage.applyPaymentUrlFallback "https://dev.solpay.cash" "pi_5"
        intentNoUrl).payment_url = some "https://dev.solpay.cash/pay/pi_5"
    ∧ (SolPayClient.normalizeResult "https://dev.solpay.cash"
        { amount := 1, asset := "USDC" } intentNoUrl).paymentUrl
      = "https://dev.solpay.cash/pay/pi_5" := by
  have h := (payment_url_fallback "https://dev.solpay.cash" "pi_5"
    { amount := 1, asset := "USDC" } intentNoUrl).1 (Or.inl rfl)
  exact ⟨h.1.trans (by decide), h.2.trans (by decide)⟩

/-- Claim C7 (amended): the proxy returns 400 exactly when `amount` or
`asset` is missing or falsy, or when the `network` value is truthy
(present and non-empty) and not in the closed enum; a request with truthy
amount and asset and no network field is forwarded to the default-network
client (`getDefaultClient` with no override); and when the upstream
exchange throws, a request that passes validation yields a 500 with an
error body rather than a propagated exception. -/
theorem create_invoice_route_validation (env : SolPay.Env)
    (body : CreateInvoiceRoute.CreateInvoiceBody)
    (upstream : SolPayClient.ClientConfig → SolPayClient.PaymentParams →
      Except String SolPay.RawIntent) :
    (CreateInvoiceRoute.isBadRequest (CreateInvoiceRoute.POST env body upstream) = true
      ↔ (SolPay.intTruthy body.amount = false ∨ SolPay.strTruthy body.asset = false
          ∨ (SolPay.strTruthy body.network = true
              ∧ CreateInvoiceRoute.validNetwork (body.network.getD "") = false)))
    ∧ (body.network = none → SolPay.intTruthy body.amount = true →
        SolPay.strTruthy body.asset = true →
        CreateInvoiceRoute.POST env body upstream
            = CreateInvoiceRoute.dispatchCreate env body upstream
          ∧ SolPayClient.getDefaultClient body.network env
            = SolPayClient.getDefaultClient none env)
    ∧ (∀ e : String, (∀ cfg params, upstream cfg params = .error e) →
        CreateInvoiceRoute.isBadRequest (CreateInvoiceRoute.POST env body upstream) = false →
        CreateInvoiceRoute.isServerError (CreateInvoiceRoute.POST env body upstream) = true) := by
  have hdispatch : CreateInvoiceRoute.isBadRequest
      (CreateInvoiceRoute.dispatchCreate env body upstream) = false := by
    unfold CreateInvoiceRoute.dispatchCreate
    cases SolPayClient.getDefaultClient body.network env with
    | error e => rfl
    | ok cfg =>
      show CreateInvoiceRoute.isBadRequest
        (CreateInvoiceRoute.delegateCreate cfg (CreateInvoiceRoute.routeParams body) upstream)
          = false
      unfold CreateInvoiceRoute.delegateCreate
      cases SolPayClient.createPaymentIntent cfg (CreateInvoiceRoute.routeParams body)
          (upstream cfg (CreateInvoiceRoute.routeParams body)) with
      | error e => rfl
      | ok r => rfl
  have hbr : ∀ msg : String,
      CreateInvoiceRoute.isBadRequest (.badRequest msg) = true := fun _ => rfl
  refine ⟨?_, ?_, ?_⟩
  · cases hA : SolPay.intTruthy body.amount <;>
      cases hS : SolPay.strTruthy body.asset <;>
      cases hN : SolPay.strTruthy body.network <;>
      cases hV : CreateInvoiceRoute.validNetwork (body.network.getD "") <;>
      simp [CreateInvoiceRoute.POST, hA, hS, hN, hV, hdispatch, hbr]
  · intro hn ha hs
    refine ⟨?_, by rw [hn]⟩
    have hN : SolPay.strTruthy body.network = false := by
      rw [hn]
      rfl
    unfold CreateInvoiceRoute.POST
    simp [ha, hs, hN]
  · intro e hup hbad
    have hsrv : CreateInvoiceRoute.isServerError
        (CreateInvoiceRoute.dispatchCreate env body upstream) = true := by
      unfold CreateInvoiceRoute.dispatchCreate
      cases SolPayClient.getDefaultClient body.network env with
      | error e2 => rfl
      | ok cfg =>
        show CreateInvoiceRoute.isServerError
          (CreateInvoiceRoute.delegateCreate cfg (CreateInvoiceRoute.routeParams body) upstream)
            = true
        unfold CreateInvoiceRoute.delegateCreate
        simp [SolPayClient.createPaymentIntent,
          hup cfg (CreateInvoiceRoute.routeParams body), CreateInvoiceRoute.isServerError]
    unfold CreateInvoiceRoute.POST at hbad ⊢
    by_cases h1 : (!(SolPay.intTruthy body.amount) || !(SolPay.strTruthy body.asset)) = true
    · rw [if_pos h1] at hbad
      exact absurd hbad (by simp [CreateInvoiceRoute.isBadRequest])
    · rw [if_neg h1] at hbad ⊢
      by_cases h2 : (SolPay.strTruthy body.network
          && !(CreateInvoiceRoute.validNetwork (body.network.getD ""))) = true
      · rw [if_pos h2] at hbad
        exact absurd hbad (by simp [CreateInvoiceRoute.isBadRequest])
      · rw [if_neg h2]
        exact hsrv

/-- Witness for C7: a validated request whose upstream exchange throws is
answered with a 500 rather than a propagated exception. -/
theorem create_invoice_route_validation_witness :
    CreateInvoiceRoute.isServerError
      (CreateInvoiceRoute.POST envWallet bodyNoNetwork upstreamErr) = true :=
  (create_invoice_route_validation envWallet bodyNoNetwork upstreamErr).2.2
    "boom" (fun _ _ => rfl) (by decide)

/-- Counterexample to C7 as stated: the body
`{amount: 1000000, asset: "USDC", network: ""}` carries a present network
value that is not in the closed enum, so the claim demands a 400; the code
skips the enum check because the empty string is falsy (line 17 of the
route tests `network && ...`), and the request is delegated instead. -/
theorem empty_network_passes_validation :
    CreateInvoiceRoute.isBadRequest
      (CreateInvoiceRoute.POST envWallet bodyEmptyNetwork upstreamOk) = false
    ∧ bodyEmptyNetwork.network = some ""
    ∧ CreateInvoiceRoute.validNetwork "" = false := by
  refine ⟨by decide, rfl, rfl⟩

/-- Claim C8: an identifier without the `pi_` prefix fails immediately
with the invalid-id error and zero network calls; with the prefix, exactly
one cache-bypassing GET on `{apiBase}/api/v1/payment_intents/{id}` is
issued, a non-2xx response fails with the not-found message and a 2xx
response redirects to `/invoice/{id}`. -/
theorem status_lookup_behaviour (apiBase intentId : String) (responseOk : Bool) :
    (SolPay.jsStartsWith intentId "pi_" = false →
      StatusPage.handleSubmit apiBase intentId responseOk
        = (.invalidId "Invalid payment intent ID. It should start with \"pi_\"", []))
    ∧ (SolPay.jsStartsWith intentId "pi_" = true →
      (StatusPage.handleSubmit apiBase intentId responseOk).2
          = [{ url := apiBase ++ "/api/v1/payment_intents/" ++ intentId, noStore := true }]
      ∧ (responseOk = false →
          (StatusPage.handleSubmit apiBase intentId responseOk).1
            = .notFound "Invoice not found. Please check the payment intent ID.")
      ∧ (responseOk = true →
          (StatusPage.handleSubmit apiBase intentId responseOk).1
            = .redirect ("/invoice/" ++ intentId))) := by
  constructor
  · intro h
    unfold StatusPage.handleSubmit
    simp [h]
  · intro h
    unfold StatusPage.handleSubmit
    cases responseOk <;> simp [h]

/-- Witness for C8 at the identifier `abc123` (no prefix): immediate
invalid-id failure with an empty call list. -/
theorem status_lookup_behaviour_witness :
    StatusPage.handleSubmit "https://dev.solpay.cash" "abc123" true
      = (.invalidId "Invalid payment intent ID. It should start with \"pi_\"", []) :=
  (status_lookup_behaviour "https://dev.solpay.cash" "abc123" true).1 (by decide)

/-- Auxiliary invariant: along any event sequence, the polling interval of
the display page is scheduled exactly while the view is mounted and the
last-known status is the string `pending`. -/
theorem timer_matches_pending_aux (apiBase intentId : String) (evs : List InvoicePage.Ev) :
    ∀ s : InvoicePage.CState,
      s.timerActive = (s.mounted && InvoicePage.statusPending s) →
      (evs.foldl (InvoicePage.step apiBase intentId) s).timerActive
        = ((evs.foldl (InvoicePage.step apiBase intentId) s).mounted
            && InvoicePage.statusPending (evs.foldl (InvoicePage.step apiBase intentId) s)) := by
  induction evs with
  | nil => exact fun s h => h
  | cons e rest ih =>
    intro s h
    refine ih (InvoicePage.step apiBase intentId s e) ?_
    by_cases hm : s.mounted = true
    · cases e with
      | fetchSuccess data =>
        cases hinv : s.invoice with
        | none =>
          simp [InvoicePage.step, InvoicePage.depChanged, InvoicePage.statusPending,
            hm, hinv]
        | some d0 =>
          by_cases hds : (d0.status
              == (InvoicePage.applyPaymentUrlFallback apiBase intentId data).status) = true
          · have heq : d0.status
                = (InvoicePage.applyPaymentUrlFallback apiBase intentId data).status :=
              beq_iff_eq.mp hds
            simp only [InvoicePage.step, InvoicePage.depChanged, hm, hinv, hds,
              Bool.not_true, Bool.false_eq_true, if_false]
            rw [h]
            simp [InvoicePage.statusPending, hinv, hm, heq]
          · have hds' : (d0.status
                == (InvoicePage.applyPaymentUrlFallback apiBase intentId data).status)
                  = false := by simpa using hds
            simp [InvoicePage.step, InvoicePage.depChanged, InvoicePage.statusPending,
              hm, hinv, hds']
      | fetchError msg =>
        simp only [InvoicePage.step, hm, Bool.not_true, Bool.false_eq_true, if_false]
        rw [h]
        simp [InvoicePage.statusPending, hm]
      | tick =>
        simpa [InvoicePage.step, hm] using h
      | unmount =>
        simp [InvoicePage.step, InvoicePage.statusPending, hm]
    · have hm' : s.mounted = false := by simpa using hm
      simpa [InvoicePage.step, hm'] using h

/-- Claim C2 (amended): for every event sequence, the 5-second poll timer
of the display view is scheduled exactly when the view is still mounted
and the last-known status is exactly the string `pending`; hence the timer
is cancelled when the status changes away from `pending` (in particular on
transition to `succeeded`, so no further tick fires) and on teardown.  A
fetch error alone does not cancel it (see the counterexample), contrary to
the claim as stated. -/
theorem polling_timer_iff_pending (apiBase intentId : String) (evs : List InvoicePage.Ev) :
    (InvoicePage.run apiBase intentId evs).timerActive
      = ((InvoicePage.run apiBase intentId evs).mounted
          && InvoicePage.statusPending (InvoicePage.run apiBase intentId evs)) :=
  timer_matches_pending_aux apiBase intentId evs InvoicePage.init rfl

/-- Counterexample to C2 as stated: polling a pending intent and then
suffering a fetch error leaves the component in the error state with the
poll timer still scheduled — the effect on `[invoice?.status]` never
re-runs because the stored invoice (and hence its status) is unchanged, so
erroring does not cancel the timer. -/
theorem fetch_error_keeps_polling_timer :
    (InvoicePage.run "https://dev.solpay.cash" "pi_9"
        [.fetchSuccess rawPending, .fetchError "network down"]).error = "network down"
    ∧ (InvoicePage.run "https://dev.solpay.cash" "pi_9"
        [.fetchSuccess rawPending, .fetchError "network down"]).timerActive = true := by
  exact ⟨rfl, rfl⟩

/-- Auxiliary: the fallback of lines 83–86 never changes the status. -/
theorem applyPaymentUrlFallback_status (apiBase intentId : String)
    (data : SolPay.RawIntent) :
    (InvoicePage.applyPaymentUrlFallback apiBase intentId data).status = data.status := by
  unfold InvoicePage.applyPaymentUrlFallback
  split <;> rfl

/-- Auxiliary: on a mounted view satisfying the timer invariant, a fetch
success stores the (fallback-completed) data and leaves the timer
scheduled exactly when the new status is `pending`. -/
theorem step_fetchSuccess_fields (apiBase intentId : String)
    (s : InvoicePage.CState) (data : SolPay.RawIntent) (hm : s.mounted = true)
    (h : s.timerActive = (s.mounted && InvoicePage.statusPending s)) :
    (InvoicePage.step apiBase intentId s (.fetchSuccess data)).invoice
        = some (InvoicePage.applyPaymentUrlFallback apiBase intentId data)
    ∧ (InvoicePage.step apiBase intentId s (.fetchSuccess data)).mounted = true
    ∧ (InvoicePage.step apiBase intentId s (.fetchSuccess data)).timerActive
        = (data.status == "pending") := by
  have happly := applyPaymentUrlFallback_status apiBase intentId data
  refine ⟨by simp [InvoicePage.step, hm], by simp [InvoicePage.step, hm],
    ?_⟩
  cases hinv : s.invoice with
  | none =>
    simp [InvoicePage.step, InvoicePage.depChanged, hm, hinv, happly]
  | some d0 =>
    by_cases hds : (d0.status
        == (InvoicePage.applyPaymentUrlFallback apiBase intentId data).status) = true
    · have heq := beq_iff_eq.mp hds
      simp only [InvoicePage.step, InvoicePage.depChanged, hm, hinv, hds, Bool.not_true,
        Bool.false_eq_true, if_false]
      rw [h]
      simp [InvoicePage.statusPending, hinv, hm, heq, happly]
    · have hds' : (d0.status
          == (InvoicePage.applyPaymentUrlFallback apiBase intentId data).status)
            = false := by simpa using hds
      simp [InvoicePage.step, InvoicePage.depChanged, hm, hinv, hds', happly]
      intro heq2
      rw [happly] at hds'
      exact absurd heq2 (by simpa using hds')

/-- Claim C1 (amended): after any event history that leaves the view
mounted, a fetch yielding status `succeeded` or `completed` renders the
paid state; a fetch yielding any other status renders not-paid, and the
poll timer is then scheduled exactly when that status is the string
`pending` — for other non-paid statuses (for example `failed`) polling
does not continue, contrary to the claim as stated. -/
theorem paid_flag_and_polling_after_fetch (apiBase intentId : String)
    (evs : List InvoicePage.Ev) (data : SolPay.RawIntent)
    (hm : (InvoicePage.run apiBase intentId evs).mounted = true) :
    ((data.status = "succeeded" ∨ data.status = "completed") →
      InvoicePage.stateIsPaid
        (InvoicePage.run apiBase intentId (evs ++ [.fetchSuccess data])) = true)
    ∧ (data.status ≠ "succeeded" → data.status ≠ "completed" →
      InvoicePage.stateIsPaid
          (InvoicePage.run apiBase intentId (evs ++ [.fetchSuccess data])) = false
      ∧ (InvoicePage.run apiBase intentId (evs ++ [.fetchSuccess data])).timerActive
          = (data.status == "pending")) := by
  have hrun : InvoicePage.run apiBase intentId (evs ++ [.fetchSuccess data])
      = InvoicePage.step apiBase intentId (InvoicePage.run apiBase intentId evs)
          (.fetchSuccess data) := by
    unfold InvoicePage.run
    rw [List.foldl_append]
    rfl
  have htimer : (InvoicePage.run apiBase intentId evs).timerActive
      = ((InvoicePage.run apiBase intentId evs).mounted
          && InvoicePage.statusPending (InvoicePage.run apiBase intentId evs)) :=
    timer_matches_pending_aux apiBase intentId evs InvoicePage.init rfl
  have hfields := step_fetchSuccess_fields apiBase intentId
    (InvoicePage.run apiBase intentId evs) data hm htimer
  have happly := applyPaymentUrlFallback_status apiBase intentId data
  constructor
  · intro hpd
    rw [hrun]
    rcases hpd with h | h <;>
      simp [InvoicePage.stateIsPaid, hfields.1, InvoicePage.isPaid, happly, h]
  · intro h1 h2
    rw [hrun]
    refine ⟨?_, hfields.2.2⟩
    simp [InvoicePage.stateIsPaid, hfields.1, InvoicePage.isPaid, happly,
      beq_eq_false_iff_ne, h1, h2]

/-- Witness for C1: a fetch yielding `succeeded` on a freshly mounted view
renders the paid state. -/
theorem paid_flag_and_polling_after_fetch_witness :
    InvoicePage.stateIsPaid (InvoicePage.run "https://dev.solpay.cash" "pi_9"
        ([] ++ [.fetchSuccess rawSucceeded])) = true :=
  (paid_flag_and_polling_after_fetch "https://dev.solpay.cash" "pi_9" []
      rawSucceeded rfl).1 (Or.inl rfl)

/-- Counterexample to C1 as stated: a fetch yielding the non-paid status
`failed` leaves `isPaid` false as the claim says, but no poll timer is
active afterwards — polling continues only for the exact status
`pending`. -/
theorem nonpaid_status_without_polling :
    InvoicePage.stateIsPaid (InvoicePage.run "https://dev.solpay.cash" "pi_9"
        [.fetchSuccess rawFailed]) = false
    ∧ (InvoicePage.run "https://dev.solpay.cash" "pi_9"
        [.fetchSuccess rawFailed]).timerActive = false
    ∧ InvoicePage.statusOf (InvoicePage.run "https://dev.solpay.cash" "pi_9"
        [.fetchSuccess rawFailed]) = some "failed" :=
  ⟨rfl, rfl, rfl⟩

/-- Claim C10: the display page and the status-lookup page resolve their
API base from the single devnet variable `NEXT_PUBLIC_SOLPAY_API_BASE`
(default `https://dev.solpay.cash`) — neither takes any network input, so
for an intent on any network (mainnet included) the synthesized fallback
`payment_url` is built on that devnet base; the client used at creation
instead selects the mainnet base variable (default
`https://www.solpay.cash`) for a mainnet network, which differs from the
display base in the default environment. -/
theorem display_and_lookup_use_devnet_base (env : SolPay.Env)
    (intentId : String) (data : SolPay.RawIntent) :
    InvoicePage.fetchApiBase env
        = SolPay.strOr env.NEXT_PUBLIC_SOLPAY_API_BASE "https://dev.solpay.cash"
    ∧ StatusPage.lookupApiBase env = InvoicePage.fetchApiBase env
    ∧ ((data.payment_url = none ∨ data.payment_url = some "") →
        (InvoicePage.applyPaymentUrlFallback (InvoicePage.fetchApiBase env)
            intentId data).payment_url
          = some (SolPay.strOr env.NEXT_PUBLIC_SOLPAY_API_BASE "https://dev.solpay.cash"
              ++ "/pay/" ++ intentId))
    ∧ SolPayClient.clientApiBase (some "solana:mainnet") env
        = SolPay.strOr env.NEXT_PUBLIC_SOLPAY_API_BASE_MAINNET "https://www.solpay.cash"
    ∧ InvoicePage.fetchApiBase { }
        ≠ SolPayClient.clientApiBase (some "solana:mainnet") { } := by
  refine ⟨rfl, rfl, ?_, ?_, by decide⟩
  · rintro (h | h) <;>
      simp [InvoicePage.applyPaymentUrlFallback, SolPay.strTruthy, SolPay.strOr,
        InvoicePage.fetchApiBase, h]
  · simp [SolPayClient.clientApiBase, SolPayClient.selectedNetworkOf, SolPay.strOr]

/-- Witness for C10: a mainnet intent lacking `payment_url`, displayed in
the default environment, gets a fallback URL on the devnet base. -/
theorem display_and_lookup_use_devnet_base_witness :
    (InvoicePage.applyPaymentUrlFallback (InvoicePage.fetchApiBase { }) "pi_3"
        intentMainnetNoUrl).payment_url = some "https://dev.solpay.cash/pay/pi_3" := by
  have h := (display_and_lookup_use_devnet_base { } "pi_3" intentMainnetNoUrl).2.2.1
    (Or.inl rfl)
  exact h.trans (by decide)
